import Mathlib

/-!
Verification of the ticket-monitor script (`ticket_monitor_action.py`).

The script is a single linear procedure: read configuration from the
environment, fetch the event page, classify it via a denylist of phrases,
compare against a persisted JSON state file, notify (email, SMS) on a
false-to-true transition, and persist the new state.

The embedding below models the external world by oracles:
  * `Env` — the process environment (`os.environ.get`),
  * `FS` — the file system, mapping a path to the parse outcome of its
    content (`none` = file does not exist),
  * `FetchResult` — the outcome of the single `requests.get` call,
  * a `smtpRaises : Bool` flag — whether the SMTP transaction
    (connect / starttls / login / sendmail / quit) raises.
All functions are translated directly from the source; the orchestrator
`main` is embedded as `main'` (the unprimed name is reserved by Lean).
-/

/-- JSON values as produced by Python's `json.load`. Numbers are modelled as
integers, which covers every value the claims mention; `obj` carries the
key/value pairs of a Python dict (duplicate keys already collapsed by the
parser). -/
inductive Json where
  | null : Json
  | bool (b : Bool) : Json
  | num (n : Int) : Json
  | str (s : String) : Json
  | arr (xs : List Json) : Json
  | obj (kvs : List (String × Json)) : Json

/-- Python truthiness (`bool(v)`) of a JSON value: `None`, `False`, `0`,
`""`, `[]` and `{}` are falsy, everything else truthy. -/
def Json.truthy : Json → Bool
  | .null => false
  | .bool b => b
  | .num n => n != 0
  | .str s => !s.isEmpty
  | .arr xs => !xs.isEmpty
  | .obj kvs => !kvs.isEmpty

/-- Python truthiness of the result of `dict.get` (`None` when the key is
absent). -/
def truthyOpt : Option Json → Bool
  | none => false
  | some j => j.truthy

/-- The process environment: `os.environ.get` returns `none` when the
variable is unset. -/
def Env : Type := String → Option String

/-- Python truthiness of an `os.environ.get` result: unset (`None`) and the
empty string are falsy. -/
def pyTruthy : Option String → Bool
  | none => false
  | some s => !s.isEmpty

/-- Parse outcome for the content of an existing file: either it parses to a
JSON value, or reading/parsing it raises (caught by `load_state`). -/
inductive FileContent where
  | jsonVal (j : Json) : FileContent
  | malformed : FileContent

/-- The file system: a path maps to `none` when `os.path.exists` is false. -/
def FS : Type := String → Option FileContent

/-- Outcome of the single `requests.get(url, ...)` call: a transport
exception, or a response with a status code and a body (`response.text`). -/
inductive FetchResult where
  | exc : FetchResult
  | response (status : Nat) (body : String) : FetchResult

/-- Python's `str.lower()` on one character (the ASCII range, which covers
the denylist alphabet). -/
def lowerChar (c : Char) : Char :=
  if 65 ≤ c.toNat && c.toNat ≤ 90 then Char.ofNat (c.toNat + 32) else c

/-- Python's `str.lower()`, as a character list. -/
def pyLower (s : String) : List Char :=
  s.toList.map lowerChar

/-- Python's `needle in hay` on strings: substring containment. -/
def containsSub (hay needle : List Char) : Bool :=
  match hay with
  | [] => needle.isEmpty
  | c :: rest => needle.isPrefixOf (c :: rest) || containsSub rest needle

/-- The fixed denylist `no_phrases` from `check_tickets`. -/
def no_phrases : List String :=
  ["sorry, we don't currently have any tickets",
   "no results found",
   "alerts not currently available"]

/-- Modelled from `check_tickets(url)`: any transport exception is caught and
yields `False`; a non-200 status yields `False`; otherwise the body is
lower-cased and `False` is returned as soon as a denylist phrase occurs in
it, `True` when none does. The request headers and the 30s timeout do not
affect the classification. -/
def check_tickets (fetch : FetchResult) : Bool :=
  match fetch with
  | .exc => false
  | .response status body =>
    if status != 200 then false
    else
      let html := pyLower body
      if no_phrases.any (fun phrase => containsSub html phrase.toList) then false
      else true

/-- Modelled from `load_state(path)`: `None` when the file does not exist;
the parsed JSON value on success; `None` (after logging) when reading or
parsing raises. -/
def load_state (fs : FS) (path : String) : Option Json :=
  match fs path with
  | none => none
  | some .malformed => none
  | some (.jsonVal j) => some j

/-- Modelled from `save_state(path, state)`: writes the JSON serialization of
`state`, overwriting existing content; a later `json.load` of the file parses
back to the same value. The `except` branch only logs, so the successful
write is the modelled outcome. -/
def save_state (fs : FS) (path : String) (state : Json) : FS :=
  fun p => if p = path then some (.jsonVal state) else fs p

/-- Whitespace stripped by Python's `int(str)` conversion (ASCII range). -/
def isPySpace (c : Char) : Bool :=
  c = ' ' || c = '\t' || c = '\n' || c = '\r' || c = '\x0b' || c = '\x0c'

/-- Python's `str.strip()` as used by `int(str)`. -/
def pyStrip (cs : List Char) : List Char :=
  ((cs.dropWhile isPySpace).reverse.dropWhile isPySpace).reverse

/-- Decimal value of a digit run. -/
def digitsToNat (ds : List Char) : Nat :=
  ds.foldl (fun acc d => acc * 10 + (d.toNat - 48)) 0

/-- Modelled from Python's builtin `int(s)` applied to an environment string:
strips surrounding whitespace, accepts an optional sign followed by a
non-empty run of decimal digits, and raises `ValueError` (here: `none`)
otherwise. (Underscore digit grouping is not modelled; no claim depends on
it.) -/
def pyInt (s : String) : Option Int :=
  match pyStrip s.toList with
  | '-' :: ds =>
    if !ds.isEmpty && ds.all Char.isDigit then some (-(digitsToNat ds : Int))
    else none
  | '+' :: ds =>
    if !ds.isEmpty && ds.all Char.isDigit then some (digitsToNat ds : Int)
    else none
  | ds =>
    if !ds.isEmpty && ds.all Char.isDigit then some (digitsToNat ds : Int)
    else none

/-- Observable outcome of one call to `send_email`. -/
structure EmailOutcome where
  /-- the incomplete-configuration early return was taken -/
  skipped : Bool
  /-- an SMTP session was opened -/
  smtpAttempted : Bool
  /-- an exception escaped `send_email` (the `int(...)` port conversion sits
  outside the `try` block) -/
  raised : Bool
  /-- the message was transmitted -/
  sent : Bool

/-- Modelled from `send_email(subject, message)`. In source order: read the
SMTP settings, convert `SMTP_PORT` (default `"587"`) with `int(...)` — which
raises before anything else when it is not numeric —, skip when any of
server, username, password, recipients is falsy, otherwise run the SMTP
transaction inside `try`, whose exceptions (`smtpRaises`) are caught and
logged. `EMAIL_FROM` only feeds message headers and does not affect the
modelled outcome. -/
def send_email (env : Env) (smtpRaises : Bool) : EmailOutcome :=
  let smtp_server := env "SMTP_SERVER"
  let portStr := (env "SMTP_PORT").getD "587"
  let username := env "SMTP_USERNAME"
  let password := env "SMTP_PASSWORD"
  let to_addrs := env "EMAIL_TO"
  match pyInt portStr with
  | none =>
    { skipped := false, smtpAttempted := false, raised := true, sent := false }
  | some _ =>
    if !(pyTruthy smtp_server && pyTruthy username
          && pyTruthy password && pyTruthy to_addrs) then
      { skipped := true, smtpAttempted := false, raised := false, sent := false }
    else if smtpRaises then
      { skipped := false, smtpAttempted := true, raised := false, sent := false }
    else
      { skipped := false, smtpAttempted := true, raised := false, sent := true }

/-- Modelled from `send_sms(message)`: returns immediately when `SMS_PHONE`
is unset or empty; otherwise posts to the Textbelt gateway, with every
exception caught and logged. The returned flag records whether the POST was
attempted. -/
def send_sms (env : Env) : Bool :=
  pyTruthy (env "SMS_PHONE")

/-- The Python exceptions that can escape `main` and crash the process. -/
inductive PyExc where
  /-- `state.get(...)` on a truthy non-dict JSON value -/
  | attributeError : PyExc
  /-- `int(os.environ.get("SMTP_PORT", "587"))` on a non-numeric string -/
  | valueError : PyExc

/-- Observable trace of one run of `main`. -/
structure RunResult where
  /-- process exit status (1 via `sys.exit(1)` or an uncaught exception) -/
  exitCode : Nat
  /-- the event page was fetched -/
  fetched : Bool
  /-- the notification branch (`has_tickets and not last_status`) was taken -/
  notified : Bool
  /-- `send_email` was invoked -/
  emailCalled : Bool
  /-- `send_sms` performed its HTTP POST -/
  smsAttempted : Bool
  /-- paths passed to `load_state`, in order -/
  loadCalls : List String
  /-- `(path, state)` arguments passed to `save_state`, in order -/
  saveCalls : List (String × Json)
  /-- uncaught exception that terminated the run, if any -/
  exc : Option PyExc

/-- The state-file path: `os.environ.get("STATE_FILE", "state.json")`. -/
def stateFilePath (env : Env) : String :=
  (env "STATE_FILE").getD "state.json"

/-- Python's `load_state(state_file) or {}`: the loaded value when it is
truthy, the empty dict otherwise (also when `load_state` returned `None`). -/
def pyOr (o : Option Json) : Json :=
  match o with
  | none => .obj []
  | some j => if j.truthy then j else .obj []

/-- Modelled from `main()`: exit 1 when `EVENT_URL` is unset or empty;
otherwise load the previous state, apply `or {}`, read
`state.get("has_tickets")` — which raises `AttributeError` when the state is
a truthy non-dict —, run the checker, notify on `has_tickets and not
last_status` (where `send_email` may raise `ValueError` out of the run),
and finally save `{"has_tickets": has_tickets}`. -/
def main' (env : Env) (fs : FS) (fetch : FetchResult) (smtpRaises : Bool) :
    RunResult :=
  if !pyTruthy (env "EVENT_URL") then
    { exitCode := 1, fetched := false, notified := false, emailCalled := false,
      smsAttempted := false, loadCalls := [], saveCalls := [], exc := none }
  else
    let state_file := stateFilePath env
    let state := pyOr (load_state fs state_file)
    match state with
    | .obj kvs =>
      let last_status := List.lookup "has_tickets" kvs
      let has_tickets := check_tickets fetch
      if has_tickets && !truthyOpt last_status then
        let eo := send_email env smtpRaises
        if eo.raised then
          { exitCode := 1, fetched := true, notified := true,
            emailCalled := true, smsAttempted := false,
            loadCalls := [state_file], saveCalls := [],
            exc := some .valueError }
        else
          { exitCode := 0, fetched := true, notified := true,
            emailCalled := true, smsAttempted := send_sms env,
            loadCalls := [state_file],
            saveCalls := [(state_file, .obj [("has_tickets", .bool has_tickets)])],
            exc := none }
      else
        { exitCode := 0, fetched := true, notified := false,
          emailCalled := false, smsAttempted := false,
          loadCalls := [state_file],
          saveCalls := [(state_file, .obj [("has_tickets", .bool has_tickets)])],
          exc := none }
    | _ =>
      { exitCode := 1, fetched := false, notified := false,
        emailCalled := false, smsAttempted := false,
        loadCalls := [state_file], saveCalls := [], exc := some .attributeError }

/-- An empty environment: every variable unset. -/
def envEmpty : Env := fun _ => none

/-- An empty file system: no file exists. -/
def fsEmpty : FS := fun _ => none

/-- An environment with only `EVENT_URL` configured. -/
def envUrlOnly : Env := fun k =>
  if k = "EVENT_URL" then some "https://example.org/event" else none

/-- A file system whose `state.json` holds the persisted state
`{"has_tickets": true}`. -/
def fsPrevTrue : FS := fun p =>
  if p = "state.json" then
    some (.jsonVal (.obj [("has_tickets", .bool true)]))
  else none

/-- A file system whose `state.json` holds `{"has_tickets": "false"}` — a
truthy string value in the flag field. -/
def fsPrevStr : FS := fun p =>
  if p = "state.json" then
    some (.jsonVal (.obj [("has_tickets", .str "false")]))
  else none

/-- A file system whose `state.json` holds the valid JSON array `[1]`. -/
def fsArr : FS := fun p =>
  if p = "state.json" then some (.jsonVal (.arr [.num 1])) else none

/-- A full notification configuration whose `SMTP_PORT` is the non-numeric
string `"587a"`. -/
def envBadPort : Env := fun k =>
  if k = "EVENT_URL" then some "https://example.org/event"
  else if k = "SMTP_SERVER" then some "smtp.example.org"
  else if k = "SMTP_PORT" then some "587a"
  else if k = "SMTP_USERNAME" then some "monitor@example.org"
  else if k = "SMTP_PASSWORD" then some "hunter2"
  else if k = "EMAIL_TO" then some "alice@example.org"
  else if k = "SMS_PHONE" then some "447912345678"
  else none

/-- A second configuration with a non-numeric `SMTP_PORT` (`"no"`) and no
SMS phone. -/
def envBadPortB : Env := fun k =>
  if k = "EVENT_URL" then some "https://example.org/event"
  else if k = "SMTP_SERVER" then some "smtp.example.org"
  else if k = "SMTP_PORT" then some "no"
  else if k = "SMTP_USERNAME" then some "monitor@example.org"
  else if k = "SMTP_PASSWORD" then some "hunter2"
  else if k = "EMAIL_TO" then some "alice@example.org"
  else none

/-- A full notification configuration with a numeric port and an SMS phone
number. -/
def envFullSms : Env := fun k =>
  if k = "EVENT_URL" then some "https://example.org/event"
  else if k = "SMTP_SERVER" then some "smtp.example.org"
  else if k = "SMTP_PORT" then some "587"
  else if k = "SMTP_USERNAME" then some "monitor@example.org"
  else if k = "SMTP_PASSWORD" then some "hunter2"
  else if k = "EMAIL_TO" then some "alice@example.org"
  else if k = "SMS_PHONE" then some "447912345678"
  else none

/-- A configuration with server, username, password and recipients set but
`SMTP_PORT` unset. -/
def envNoPort : Env := fun k =>
  if k = "SMTP_SERVER" then some "smtp.example.org"
  else if k = "SMTP_USERNAME" then some "monitor@example.org"
  else if k = "SMTP_PASSWORD" then some "hunter2"
  else if k = "EMAIL_TO" then some "alice@example.org"
  else none

/-- A configuration with the SMTP server missing and the port unset. -/
def envNoServer : Env := fun k =>
  if k = "SMTP_USERNAME" then some "monitor@example.org"
  else if k = "SMTP_PASSWORD" then some "hunter2"
  else if k = "EMAIL_TO" then some "alice@example.org"
  else none

/-- The state-file contents on which `state.get("has_tickets")` cannot
raise: file absent, unreadable/unparseable, or a JSON value that is falsy
(replaced by `{}` by `or {}`) or a dict. -/
def stateOkB (fs : FS) (path : String) : Bool :=
  match fs path with
  | none => true
  | some .malformed => true
  | some (.jsonVal (.obj _)) => true
  | some (.jsonVal j) => !j.truthy

/-- C1: edge-trigger law — with `EVENT_URL` configured and the state file in
the persisted format (`absent` or `{"has_tickets": b}`), the notification
branch is taken iff the checker result is `true` and the previous state is
`false` or absent; in particular `true → true`, `false → false` and
`true → false` runs notify zero times. -/
theorem c1_edge_trigger (env : Env) (fs : FS) (fetch : FetchResult)
    (smtpRaises : Bool) (prev : Option Bool)
    (hurl : pyTruthy (env "EVENT_URL") = true)
    (hfs : fs (stateFilePath env) =
      prev.map (fun b => FileContent.jsonVal (Json.obj [("has_tickets", Json.bool b)]))) :
    (main' env fs fetch smtpRaises).notified
      = (check_tickets fetch && !prev.getD false) := by
  cases prev with
  | none =>
    simp only [Option.map_none'] at hfs
    cases hc : check_tickets fetch <;>
      simp [main', hurl, load_state, hfs, pyOr, truthyOpt, hc] <;>
      (try (split <;> rfl))
  | some b =>
    simp only [Option.map_some'] at hfs
    cases hc : check_tickets fetch <;> cases b <;>
      simp [main', hurl, load_state, hfs, pyOr, truthyOpt, hc, Json.truthy,
        List.lookup] <;>
      (try (split <;> rfl))

/-- C1 witness: a concrete `true → true` run notifies zero times. -/
theorem c1_edge_trigger_witness :
    pyTruthy (envUrlOnly "EVENT_URL") = true ∧
      (main' envUrlOnly fsPrevTrue (.response 200 "Buy now") false).notified
        = (check_tickets (.response 200 "Buy now") && !(some true).getD false) :=
  ⟨rfl, c1_edge_trigger envUrlOnly fsPrevTrue (.response 200 "Buy now") false
    (some true) rfl rfl⟩

/-- C2: denylist classification — a 200 response is classified unavailable
exactly when the lower-cased body contains one of the three denylist
phrases, and available when it contains none of them. -/
theorem c2_denylist_classification (body : String) :
    check_tickets (.response 200 body) = false ↔
      ∃ phrase ∈ no_phrases, containsSub (pyLower body) phrase.toList = true := by
  have hb : check_tickets (.response 200 body)
      = !(no_phrases.any fun phrase => containsSub (pyLower body) phrase.toList) := by
    unfold check_tickets
    simp only [bne_self_eq_false, Bool.false_eq_true, if_false]
    cases no_phrases.any fun phrase => containsSub (pyLower body) phrase.toList <;>
      simp
  rw [hb]
  simp [List.any_eq_true]

/-- C3: fail-safe checker default — a transport exception and every non-200
status yield `false`. -/
theorem c3_failsafe :
    check_tickets .exc = false ∧
      ∀ (status : Nat) (body : String), status ≠ 200 →
        check_tickets (.response status body) = false := by
  refine ⟨rfl, fun status body h => ?_⟩
  simp [check_tickets, bne_iff_ne, h]

/-- C3 witness: a concrete 404 response yields `false`. -/
theorem c3_failsafe_witness :
    check_tickets (.response 404 "Buy now") = false :=
  c3_failsafe.2 404 "Buy now" (by decide)

/-- C4: fatal misconfiguration — with `EVENT_URL` unset or empty the run
exits with status 1 and performs no fetch, no notification attempt and no
state read or write. -/
theorem c4_exit_on_missing_url (env : Env) (fs : FS) (fetch : FetchResult)
    (smtpRaises : Bool) (h : pyTruthy (env "EVENT_URL") = false) :
    main' env fs fetch smtpRaises =
      { exitCode := 1, fetched := false, notified := false, emailCalled := false,
        smsAttempted := false, loadCalls := [], saveCalls := [], exc := none } := by
  simp [main', h]

/-- C4 witness: the empty environment exits 1 without any other action. -/
theorem c4_exit_on_missing_url_witness :
    pyTruthy (envEmpty "EVENT_URL") = false ∧
      main' envEmpty fsEmpty .exc false =
        { exitCode := 1, fetched := false, notified := false,
          emailCalled := false, smsAttempted := false, loadCalls := [],
          saveCalls := [], exc := none } :=
  ⟨rfl, c4_exit_on_missing_url envEmpty fsEmpty .exc false rfl⟩

/-- Helper: truthiness of a dict literal. -/
theorem Json.truthy_obj (kvs : List (String × Json)) :
    (Json.obj kvs).truthy = !kvs.isEmpty := rfl

/-- Helper: `send_email` raises exactly when the port string does not parse
(the `int(...)` conversion precedes both the skip check and the `try`). -/
theorem send_email_raised_eq (env : Env) (smtpRaises : Bool) :
    (send_email env smtpRaises).raised
      = !(pyInt ((env "SMTP_PORT").getD "587")).isSome := by
  unfold send_email
  cases hp : pyInt ((env "SMTP_PORT").getD "587") with
  | none => simp [hp]
  | some p =>
    simp only [hp, Option.isSome_some, Bool.not_true]
    split
    · rfl
    · split <;> rfl

/-- Helper: on a state file the orchestrator survives, `load_state` followed
by `or {}` produces a dict. -/
theorem pyOr_obj_of_stateOk (fs : FS) (path : String)
    (h : stateOkB fs path = true) :
    ∃ kvs, pyOr (load_state fs path) = Json.obj kvs := by
  unfold stateOkB at h
  unfold load_state pyOr
  cases hfs : fs path with
  | none => exact ⟨[], rfl⟩
  | some fc =>
    rw [hfs] at h
    cases fc with
    | malformed => exact ⟨[], rfl⟩
    | jsonVal j =>
      cases j with
      | obj kvs =>
        cases htr : (Json.obj kvs).truthy
        · exact ⟨[], by simp [htr]⟩
        · exact ⟨kvs, by simp [htr]⟩
      | null => exact ⟨[], by simp [Json.truthy]⟩
      | bool b => exact ⟨[], by simp [Json.truthy] at h; simp [Json.truthy, h]⟩
      | num n => exact ⟨[], by simp [Json.truthy] at h; simp [Json.truthy, h]⟩
      | str s => exact ⟨[], by simp [Json.truthy] at h; simp [Json.truthy, h]⟩
      | arr xs => exact ⟨[], by simp [Json.truthy] at h; simp [Json.truthy, h]⟩

/-- Helper: the full run, written out, once the effective state is known to
be the dict `kvs`. -/
theorem main_of_obj (env : Env) (fs : FS) (fetch : FetchResult)
    (smtpRaises : Bool) (kvs : List (String × Json))
    (hurl : pyTruthy (env "EVENT_URL") = true)
    (hobj : pyOr (load_state fs (stateFilePath env)) = Json.obj kvs) :
    main' env fs fetch smtpRaises =
      if check_tickets fetch && !truthyOpt (List.lookup "has_tickets" kvs) then
        if (send_email env smtpRaises).raised then
          { exitCode := 1, fetched := true, notified := true,
            emailCalled := true, smsAttempted := false,
            loadCalls := [stateFilePath env], saveCalls := [],
            exc := some .valueError }
        else
          { exitCode := 0, fetched := true, notified := true,
            emailCalled := true, smsAttempted := send_sms env,
            loadCalls := [stateFilePath env],
            saveCalls := [(stateFilePath env,
              .obj [("has_tickets", .bool (check_tickets fetch))])],
            exc := none }
      else
        { exitCode := 0, fetched := true, notified := false,
          emailCalled := false, smsAttempted := false,
          loadCalls := [stateFilePath env],
          saveCalls := [(stateFilePath env,
            .obj [("has_tickets", .bool (check_tickets fetch))])],
          exc := none } := by
  unfold main'
  simp only [hurl, Bool.not_true, Bool.false_eq_true, if_false]
  rw [hobj]

/-- C5 counterexample: with a full email configuration whose `SMTP_PORT` is
`"587a"`, the `ValueError` raised inside `send_email` is not caught — the
run aborts with exit status 1, the SMS channel is never attempted and the
state is not saved. -/
theorem c5_counterexample :
    (main' envBadPort fsEmpty (.response 200 "Buy now") false).exc
        = some .valueError ∧
      (main' envBadPort fsEmpty (.response 200 "Buy now") false).exitCode = 1 ∧
      (main' envBadPort fsEmpty (.response 200 "Buy now") false).smsAttempted
        = false ∧
      (main' envBadPort fsEmpty (.response 200 "Buy now") false).saveCalls = [] :=
  ⟨rfl, rfl, rfl, rfl⟩

/-- C5 (amended): when `SMTP_PORT` (default `"587"`) parses as an integer
and the state file is in a surviving shape, every exception raised during
the SMTP transaction is caught: the run never crashes, exits 0, saves the
state, and — when the notification branch ran — attempts SMS exactly when a
phone number is configured. -/
theorem c5_email_failure_contained (env : Env) (fs : FS) (fetch : FetchResult)
    (smtpRaises : Bool)
    (hurl : pyTruthy (env "EVENT_URL") = true)
    (hport : (pyInt ((env "SMTP_PORT").getD "587")).isSome = true)
    (hok : stateOkB fs (stateFilePath env) = true) :
    (main' env fs fetch smtpRaises).exc = none ∧
      (main' env fs fetch smtpRaises).exitCode = 0 ∧
      (main' env fs fetch smtpRaises).saveCalls
        = [(stateFilePath env,
            .obj [("has_tickets", .bool (check_tickets fetch))])] ∧
      ((main' env fs fetch smtpRaises).notified = true →
        (main' env fs fetch smtpRaises).smsAttempted
          = pyTruthy (env "SMS_PHONE")) := by
  obtain ⟨kvs, hobj⟩ := pyOr_obj_of_stateOk fs (stateFilePath env) hok
  rw [main_of_obj env fs fetch smtpRaises kvs hurl hobj]
  have hraised : (send_email env smtpRaises).raised = false := by
    rw [send_email_raised_eq, hport]; rfl
  cases hd : check_tickets fetch && !truthyOpt (List.lookup "has_tickets" kvs) <;>
    simp [hd, hraised, send_sms]

/-- C5 witness: in a concrete full email configuration with a raising SMTP
transaction, the run exits 0, saves the state and attempts SMS. -/
theorem c5_email_failure_contained_witness :
    pyTruthy (envFullSms "EVENT_URL") = true ∧
      (pyInt ((envFullSms "SMTP_PORT").getD "587")).isSome = true ∧
      stateOkB fsEmpty (stateFilePath envFullSms) = true ∧
      ((main' envFullSms fsEmpty (.response 200 "Buy now") true).exc = none ∧
        (main' envFullSms fsEmpty (.response 200 "Buy now") true).exitCode = 0 ∧
        (main' envFullSms fsEmpty (.response 200 "Buy now") true).saveCalls
          = [(stateFilePath envFullSms,
              .obj [("has_tickets",
                .bool (check_tickets (.response 200 "Buy now")))])] ∧
        ((main' envFullSms fsEmpty (.response 200 "Buy now") true).notified = true →
          (main' envFullSms fsEmpty (.response 200 "Buy now") true).smsAttempted
            = pyTruthy (envFullSms "SMS_PHONE"))) :=
  ⟨rfl, rfl, rfl,
    c5_email_failure_contained envFullSms fsEmpty (.response 200 "Buy now")
      true rfl rfl rfl⟩

/-- Helper: when the state file holds a truthy non-dict value, the run dies
with an uncaught `AttributeError`. -/
theorem main_exc_of_not_stateOk (env : Env) (fs : FS) (fetch : FetchResult)
    (smtpRaises : Bool)
    (hurl : pyTruthy (env "EVENT_URL") = true)
    (hok : stateOkB fs (stateFilePath env) = false) :
    (main' env fs fetch smtpRaises).exc = some .attributeError := by
  unfold stateOkB at hok
  unfold main'
  simp only [hurl, Bool.not_true, Bool.false_eq_true, if_false]
  cases hfs : fs (stateFilePath env) with
  | none => rw [hfs] at hok; simp at hok
  | some fc =>
    rw [hfs] at hok
    cases fc with
    | malformed => simp at hok
    | jsonVal j =>
      cases j with
      | obj kvs => simp at hok
      | null => simp [Json.truthy] at hok
      | bool b =>
        simp [Json.truthy] at hok
        simp [load_state, hfs, pyOr, Json.truthy, hok]
      | num n =>
        simp [Json.truthy] at hok
        simp [load_state, hfs, pyOr, Json.truthy, hok]
      | str s =>
        simp [Json.truthy] at hok
        simp [load_state, hfs, pyOr, Json.truthy, hok]
      | arr xs =>
        simp [Json.truthy] at hok
        simp [load_state, hfs, pyOr, Json.truthy, hok]

/-- C6 counterexample: a run with `EVENT_URL` set (and a full email
configuration whose `SMTP_PORT` is the non-numeric `"no"`) performs zero
state writes — the uncaught `ValueError` aborts the run before `save_state`
is reached. -/
theorem c6_counterexample :
    pyTruthy (envBadPortB "EVENT_URL") = true ∧
      (main' envBadPortB fsEmpty (.response 200 "Buy now") false).saveCalls
        = [] ∧
      (main' envBadPortB fsEmpty (.response 200 "Buy now") false).exc
        = some .valueError :=
  ⟨rfl, rfl, rfl⟩

/-- C6 (amended): on every run where `EVENT_URL` is set (non-empty) and no
uncaught exception aborts the run, the orchestrator calls `save_state`
exactly once, at the end, with `{"has_tickets": current}` — regardless of
whether a notification fired and regardless of the previous state. -/
theorem c6_save_exactly_once (env : Env) (fs : FS) (fetch : FetchResult)
    (smtpRaises : Bool)
    (hurl : pyTruthy (env "EVENT_URL") = true)
    (hnc : (main' env fs fetch smtpRaises).exc = none) :
    (main' env fs fetch smtpRaises).saveCalls
      = [(stateFilePath env,
          .obj [("has_tickets", .bool (check_tickets fetch))])] := by
  cases hok : stateOkB fs (stateFilePath env) with
  | false =>
    rw [main_exc_of_not_stateOk env fs fetch smtpRaises hurl hok] at hnc
    simp at hnc
  | true =>
    obtain ⟨kvs, hobj⟩ := pyOr_obj_of_stateOk fs (stateFilePath env) hok
    rw [main_of_obj env fs fetch smtpRaises kvs hurl hobj] at hnc ⊢
    cases hd : check_tickets fetch && !truthyOpt (List.lookup "has_tickets" kvs) with
    | false => simp [hd]
    | true =>
      simp only [hd, if_true] at hnc ⊢
      cases hr : (send_email env smtpRaises).raised with
      | true => simp [hr] at hnc
      | false => simp [hr]

/-- C6 witness: a concrete completing run saves the state exactly once. -/
theorem c6_save_exactly_once_witness :
    pyTruthy (envUrlOnly "EVENT_URL") = true ∧
      (main' envUrlOnly fsEmpty (.response 200 "Buy now") false).exc = none ∧
      (main' envUrlOnly fsEmpty (.response 200 "Buy now") false).saveCalls
        = [(stateFilePath envUrlOnly,
            .obj [("has_tickets",
              .bool (check_tickets (.response 200 "Buy now")))])] :=
  ⟨rfl, rfl,
    c6_save_exactly_once envUrlOnly fsEmpty (.response 200 "Buy now") false
      rfl rfl⟩

/-- C7: state round-trip — `save_state` of `{"has_tickets": b}` followed by
`load_state` of the same path yields `{"has_tickets": b}` back; `load_state`
of a missing file yields `None`; and the caller (`main`) behaves identically
on an absent state file and on one containing `{"has_tickets": false}`. -/
theorem c7_state_roundtrip (fs : FS) (path : String) (b : Bool) (env : Env)
    (fetch : FetchResult) (smtpRaises : Bool)
    (hmiss : fs path = none) (hpath : stateFilePath env = path) :
    load_state (save_state fs path (.obj [("has_tickets", .bool b)])) path
        = some (.obj [("has_tickets", .bool b)])
      ∧ load_state fs path = none
      ∧ main' env fs fetch smtpRaises
          = main' env (save_state fs path (.obj [("has_tickets", .bool false)]))
              fetch smtpRaises := by
  refine ⟨by simp [load_state, save_state], by simp [load_state, hmiss], ?_⟩
  cases hurl : pyTruthy (env "EVENT_URL") with
  | false => simp [main', hurl]
  | true =>
    cases hc : check_tickets fetch <;>
      simp [main', hurl, load_state, save_state, hpath, hmiss, pyOr,
        truthyOpt, Json.truthy, List.lookup, hc]

/-- C7 witness: a concrete round-trip through `state.json`. -/
theorem c7_state_roundtrip_witness :
    fsEmpty "state.json" = none ∧
      stateFilePath envUrlOnly = "state.json" ∧
      (load_state
            (save_state fsEmpty "state.json" (.obj [("has_tickets", .bool true)]))
            "state.json"
          = some (.obj [("has_tickets", .bool true)])
        ∧ load_state fsEmpty "state.json" = none
        ∧ main' envUrlOnly fsEmpty (.response 200 "Buy now") false
            = main' envUrlOnly
                (save_state fsEmpty "state.json" (.obj [("has_tickets", .bool false)]))
                (.response 200 "Buy now") false) :=
  ⟨rfl, rfl,
    c7_state_roundtrip fsEmpty "state.json" true envUrlOnly
      (.response 200 "Buy now") false rfl rfl⟩

/-- C8 counterexample: with server, username, password and recipients all
configured but `SMTP_PORT` unset, `send_email` does not skip — it proceeds
to the SMTP connection (on the default port 587). -/
theorem c8_counterexample :
    envNoPort "SMTP_PORT" = none ∧
      (send_email envNoPort false).skipped = false ∧
      (send_email envNoPort false).smtpAttempted = true :=
  ⟨rfl, rfl, rfl⟩

/-- C8 (amended): the email channel requires a configured server host,
username, password and recipient list (`SMTP_PORT` is not checked — it
defaults to 587 when unset); when any of those four is missing or empty
(and the port string parses, since `int(...)` runs first), `send_email`
skips with a log line, opens no SMTP connection and returns without
error. -/
theorem c8_email_skip (env : Env) (smtpRaises : Bool)
    (hport : (pyInt ((env "SMTP_PORT").getD "587")).isSome = true)
    (hmiss : pyTruthy (env "SMTP_SERVER") = false
      ∨ pyTruthy (env "SMTP_USERNAME") = false
      ∨ pyTruthy (env "SMTP_PASSWORD") = false
      ∨ pyTruthy (env "EMAIL_TO") = false) :
    (send_email env smtpRaises).skipped = true ∧
      (send_email env smtpRaises).smtpAttempted = false ∧
      (send_email env smtpRaises).raised = false ∧
      (send_email env smtpRaises).sent = false := by
  unfold send_email
  cases hp : pyInt ((env "SMTP_PORT").getD "587") with
  | none => rw [hp] at hport; simp at hport
  | some p =>
    simp only [hp]
    have hall : (pyTruthy (env "SMTP_SERVER") && pyTruthy (env "SMTP_USERNAME")
        && pyTruthy (env "SMTP_PASSWORD") && pyTruthy (env "EMAIL_TO")) = false := by
      rcases hmiss with h | h | h | h <;> simp [h]
    simp [hall]

/-- C8 witness: with the SMTP server missing, a concrete `send_email` call
skips without opening a connection and without error. -/
theorem c8_email_skip_witness :
    (pyInt ((envNoServer "SMTP_PORT").getD "587")).isSome = true ∧
      pyTruthy (envNoServer "SMTP_SERVER") = false ∧
      ((send_email envNoServer false).skipped = true ∧
        (send_email envNoServer false).smtpAttempted = false ∧
        (send_email envNoServer false).raised = false ∧
        (send_email envNoServer false).sent = false) :=
  ⟨rfl, rfl, c8_email_skip envNoServer false rfl (Or.inl rfl)⟩

/-- C9 counterexample: with the state file holding the valid JSON array
`[1]`, the run raises an uncaught `AttributeError`
(`state.get("has_tickets")` on a list) and exits 1. -/
theorem c9_counterexample :
    pyTruthy (envUrlOnly "EVENT_URL") = true ∧
      (main' envUrlOnly fsArr (.response 200 "Buy now") false).exc
        = some .attributeError ∧
      (main' envUrlOnly fsArr (.response 200 "Buy now") false).exitCode = 1 :=
  ⟨rfl, rfl, rfl⟩

/-- C9 (amended): for every state-file content that is absent, unreadable or
unparseable, or a JSON value that is falsy or an object, the run never
raises because of the state file's content, and absence or corruption is
treated as previous state false (the notification branch fires exactly on
the checker's result); a truthy non-object value instead raises
`AttributeError`. -/
theorem c9_state_robustness (env : Env) (fs : FS) (fetch : FetchResult)
    (smtpRaises : Bool)
    (hurl : pyTruthy (env "EVENT_URL") = true)
    (hok : stateOkB fs (stateFilePath env) = true) :
    (main' env fs fetch smtpRaises).exc ≠ some .attributeError ∧
      ((fs (stateFilePath env) = none
          ∨ fs (stateFilePath env) = some .malformed) →
        (main' env fs fetch smtpRaises).notified = check_tickets fetch) := by
  obtain ⟨kvs, hobj⟩ := pyOr_obj_of_stateOk fs (stateFilePath env) hok
  rw [main_of_obj env fs fetch smtpRaises kvs hurl hobj]
  constructor
  · cases hd : check_tickets fetch && !truthyOpt (List.lookup "has_tickets" kvs) <;>
      simp [hd] <;> (try (split <;> simp))
  · intro habs
    have hnilobj : pyOr (load_state fs (stateFilePath env)) = Json.obj [] := by
      rcases habs with h | h <;> simp [load_state, pyOr, h]
    have hk : ([] : List (String × Json)) = kvs := by
      injection hnilobj.symm.trans hobj
    subst hk
    cases hc : check_tickets fetch <;>
      simp [truthyOpt, List.lookup, hc] <;> (try (split <;> rfl))

/-- C9 witness: an absent state file is treated as previous state false and
no exception is raised. -/
theorem c9_state_robustness_witness :
    pyTruthy (envUrlOnly "EVENT_URL") = true ∧
      stateOkB fsEmpty (stateFilePath envUrlOnly) = true ∧
      ((main' envUrlOnly fsEmpty (.response 200 "Buy now") false).exc
          ≠ some .attributeError ∧
        ((fsEmpty (stateFilePath envUrlOnly) = none
            ∨ fsEmpty (stateFilePath envUrlOnly) = some .malformed) →
          (main' envUrlOnly fsEmpty (.response 200 "Buy now") false).notified
            = check_tickets (.response 200 "Buy now"))) :=
  ⟨rfl, rfl,
    c9_state_robustness envUrlOnly fsEmpty (.response 200 "Buy now") false
      rfl rfl⟩

/-- C10: truthiness comparison — with the state file holding
`{"has_tickets": v}`, the notification branch fires exactly when the
checker returns true and `v` is Python-falsy: a truthy `v` (such as the
string `"false"` or the number 1) suppresses the notification, a falsy `v`
(`0`, `null`, `""`) behaves like an absent previous state. -/
theorem c10_truthiness_comparison (env : Env) (fs : FS) (fetch : FetchResult)
    (smtpRaises : Bool) (v : Json)
    (hurl : pyTruthy (env "EVENT_URL") = true)
    (hfs : fs (stateFilePath env)
      = some (.jsonVal (.obj [("has_tickets", v)]))) :
    (main' env fs fetch smtpRaises).notified
      = (check_tickets fetch && !v.truthy) := by
  cases hc : check_tickets fetch <;> cases hv : v.truthy <;>
    simp [main', hurl, load_state, hfs, pyOr, truthyOpt, Json.truthy_obj,
      List.lookup, hc, hv] <;>
    (try (split <;> rfl))

/-- C10 witness: the truthy string value `"false"` in the flag field
suppresses the notification even though the page is available. -/
theorem c10_truthiness_comparison_witness :
    pyTruthy (envUrlOnly "EVENT_URL") = true ∧
      fsPrevStr (stateFilePath envUrlOnly)
        = some (.jsonVal (.obj [("has_tickets", .str "false")])) ∧
      (main' envUrlOnly fsPrevStr (.response 200 "Buy now") false).notified
        = (check_tickets (.response 200 "Buy now") && !(Json.str "false").truthy) :=
  ⟨rfl, rfl,
    c10_truthiness_comparison envUrlOnly fsPrevStr (.response 200 "Buy now")
      false (.str "false") rfl rfl⟩

example : check_tickets (.response 200 "Sorry, we DON'T currently have any tickets available") = false := by
  rfl

example : check_tickets (.response 200 "Buy now") = true := by rfl

example : check_tickets (.response 404 "Buy now") = false := by rfl

example : pyInt "587" = some 587 := by rfl

example : pyInt "abc" = none := by rfl

example : pyInt " -12 " = some (-12) := by rfl
